import Mathlib

/-!
Verification of the bifrost model-catalog core (`framework/modelcatalog`).

The Go sources are shallowly embedded below:
* `time.Time` values are modelled as `Nat` (UTC nanoseconds); the Go zero
  time is `0`, `IsZero` is `= 0`, `Before` is `<`, and `Sub` is subtraction
  in `Int`.
* Go maps keyed by `schemas.ModelProvider` (a string type) are modelled as
  association lists `List (String × v)`; a lookup of an absent key yields the
  Go zero value, mirrored by `findD` with an explicit default.
* `ProviderModelSource` is a Go string type, so it is modelled as `String`
  (the zero value of the Go map lookup is the empty string, not "unknown").
-/

namespace Modelcatalog

/-- Go `schemas.Model`: only the `ID` field is consulted by this package. -/
structure Model where
  id : String
deriving DecidableEq, Repr

/-- Go `schemas.BifrostListModelsResponse`: the list of discovered models. -/
structure BifrostListModelsResponse where
  data : List Model
deriving DecidableEq, Repr

/-- Go `schemas.ErrorField`: message plus an optional wrapped Go error,
modelled by the string its `Error()` method would return. -/
structure ErrorField where
  message : String
  errorString : Option String
deriving DecidableEq, Repr

/-- Go `schemas.BifrostError`: the discovery error passed to the recorder. -/
structure BifrostError where
  errorField : Option ErrorField
deriving DecidableEq, Repr

/-! ### Association-list model of Go maps -/

/-- Go map read `m[k]` with zero value `d` for an absent key. -/
def findD {α : Type} (l : List (String × α)) (k : String) (d : α) : α :=
  match l.find? (fun e => e.1 = k) with
  | some e => e.2
  | none => d

/-- Go map read with presence bit: `v, ok := m[k]`. -/
def lookupA {α : Type} (l : List (String × α)) (k : String) : Option α :=
  (l.find? (fun e => e.1 = k)).map (·.2)

/-- Go map write `m[k] = v`. -/
def setA {α : Type} : List (String × α) → String → α → List (String × α)
  | [], k, v => [(k, v)]
  | e :: t, k, v => if e.1 = k then (k, v) :: t else e :: setA t k v

/-- The key set of a Go map (iteration order is irrelevant: every use below
deduplicates or sorts). -/
def keysA {α : Type} (l : List (String × α)) : List String :=
  l.map (·.1)

theorem findD_cons {α : Type} (e : String × α) (t : List (String × α)) (k : String) (d : α) :
    findD (e :: t) k d = if e.1 = k then e.2 else findD t k d := by
  by_cases h : e.1 = k <;> simp [findD, List.find?, h]

theorem findD_setA_self {α : Type} (l : List (String × α)) (k : String) (v d : α) :
    findD (setA l k v) k d = v := by
  induction l with
  | nil => simp [setA, findD, List.find?]
  | cons e t ih =>
    by_cases h : e.1 = k
    · simp [setA, h, findD_cons]
    · simp [setA, h, findD_cons, ih]

theorem findD_setA_ne {α : Type} (l : List (String × α)) (k k' : String) (v d : α)
    (h : k' ≠ k) : findD (setA l k v) k' d = findD l k' d := by
  induction l with
  | nil => simp [setA, findD, List.find?, Ne.symm h]
  | cons e t ih =>
    by_cases he : e.1 = k
    · subst he
      simp [setA, findD_cons, Ne.symm h]
    · simp only [setA, if_neg he]
      rw [findD_cons, findD_cons]
      by_cases he' : e.1 = k' <;> simp [he', ih]

theorem findD_eq_default_of_not_mem_keys {α : Type} (l : List (String × α))
    (k : String) (d : α) (h : k ∉ keysA l) : findD l k d = d := by
  induction l with
  | nil => rfl
  | cons e t ih =>
    simp only [keysA, List.map_cons, List.mem_cons] at h
    push_neg at h
    rw [findD_cons, if_neg (fun hh => h.1 hh.symm)]
    exact ih (by simpa [keysA] using h.2)

/-! ### Constants (`provider_models_health.go`) -/

/-- Go `DefaultProviderModelSnapshotStaleAfter = 24 * time.Hour`, in nanoseconds. -/
def DefaultProviderModelSnapshotStaleAfter : Nat := 24 * 60 * 60 * 1000000000

/-- Go `DefaultProviderModelHealthPersistDebounce = 500 * time.Millisecond`, in nanoseconds. -/
def DefaultProviderModelHealthPersistDebounce : Nat := 500 * 1000000

def ProviderModelSourceUnknown : String := "unknown"
def ProviderModelSourcePricingCatalog : String := "pricing_catalog"
def ProviderModelSourcePersistedSnapshot : String := "persisted_snapshot"
def ProviderModelSourceDefaultSeed : String := "default_seed"
def ProviderModelSourceAllowedModels : String := "allowed_models"
def ProviderModelSourceLiveDiscovery : String := "live_discovery"

/-- Go `ProviderModelHealthStatus` string constants, as a closed enumeration:
the package only ever constructs these five values. -/
inductive ProviderModelHealthStatus where
  | unknown
  | healthy
  | stale
  | error
  | degraded
deriving DecidableEq, Repr, Fintype

/-! ### Health state (`provider_models_health.go`) -/

/-- Go `providerDiscoveryState`: timestamps are `Nat` nanoseconds, `0` = Go zero time. -/
structure providerDiscoveryState where
  LastAttemptAt : Nat
  LastSuccessAt : Nat
  LastErrorAt : Nat
  LastError : String
  LastModelsCount : Nat
deriving DecidableEq, Repr

/-- The Go zero value of `providerDiscoveryState`. -/
def providerDiscoveryState.zero : providerDiscoveryState :=
  { LastAttemptAt := 0, LastSuccessAt := 0, LastErrorAt := 0
    LastError := "", LastModelsCount := 0 }

/-- Go `providerModelHealthState`. -/
structure providerModelHealthState where
  Filtered : providerDiscoveryState
  Unfiltered : providerDiscoveryState
  LastSnapshotUpdated : Nat
deriving DecidableEq, Repr

/-- The Go zero value of `providerModelHealthState`. -/
def providerModelHealthState.zero : providerModelHealthState :=
  { Filtered := .zero, Unfiltered := .zero, LastSnapshotUpdated := 0 }

/-- Selects the variant the `unfiltered` flag addresses. -/
def providerModelHealthState.variant (st : providerModelHealthState)
    (unfiltered : Bool) : providerDiscoveryState :=
  if unfiltered then st.Unfiltered else st.Filtered

/-- Go `ProviderModelDiscoveryHealth` (JSON report item for one variant);
Go `*time.Time` pointers are `Option Nat`, nil = `none`. -/
structure ProviderModelDiscoveryHealth where
  Status : ProviderModelHealthStatus
  LastAttemptAt : Option Nat
  LastSuccessAt : Option Nat
  LastErrorAt : Option Nat
  LastError : String
  LastModelsCount : Nat
deriving DecidableEq, Repr

/-- Go `toProviderModelDiscoveryHealth`: derives the per-variant status from the
recorded state and the current time, and copies the raw fields out. -/
def toProviderModelDiscoveryHealth (state : providerDiscoveryState) (now : Nat) :
    ProviderModelDiscoveryHealth :=
  { Status :=
      if state.LastAttemptAt = 0 then .unknown
      else if state.LastErrorAt ≠ 0 ∧
          (state.LastSuccessAt = 0 ∨ ¬ state.LastErrorAt < state.LastSuccessAt) then .error
      else if state.LastSuccessAt = 0 then .unknown
      else if (now : Int) - (state.LastSuccessAt : Int) >
          (DefaultProviderModelSnapshotStaleAfter : Int) then .stale
      else .healthy
    LastAttemptAt := if state.LastAttemptAt ≠ 0 then some state.LastAttemptAt else none
    LastSuccessAt := if state.LastSuccessAt ≠ 0 then some state.LastSuccessAt else none
    LastErrorAt := if state.LastErrorAt ≠ 0 then some state.LastErrorAt else none
    LastError := state.LastError
    LastModelsCount := state.LastModelsCount }

/-- Go `mergeProviderHealthStatus`: merges the two variant statuses into the
per-provider status. -/
def mergeProviderHealthStatus (filtered unfiltered : ProviderModelHealthStatus) :
    ProviderModelHealthStatus :=
  if filtered = .error ∨ unfiltered = .error then .error
  else if filtered = .stale ∨ unfiltered = .stale then .stale
  else if filtered = .unknown ∧ unfiltered = .unknown then .unknown
  else if filtered = .unknown ∨ unfiltered = .unknown then .degraded
  else .healthy

/-! ### Model string parsing (`core/schemas`, modelled from the spec) -/

/-- Splits a character list at the first occurrence of `c`. -/
def splitOnFirstChar (c : Char) : List Char → Option (List Char × List Char)
  | [] => none
  | x :: xs =>
    if x = c then some ([], xs)
    else (splitOnFirstChar c xs).map (fun p => (x :: p.1, p.2))

/-- Modelled from the spec: `schemas.ParseModelString` is not part of the
provided sources (only its callers are). Per §4.1 step 1, a model string that
contains the provider-prefix delimiter is split on the first occurrence; the
prefix is the parsed provider and the remainder the parsed model, with no
further validation of the prefix. A string without the delimiter keeps the
caller-supplied default provider. -/
def ParseModelString (model : String) (defaultProvider : String) : String × String :=
  match splitOnFirstChar '/' model.data with
  | some (pre, post) => (String.mk pre, String.mk post)
  | none => (defaultProvider, model)

/-! ### ModelCatalog state -/

/-- The `ModelCatalog` shared state, restricted to the fields this package's
health and pool logic reads or writes (matching the test constructor
`newTestCatalog` plus the persistence collaborators):
* `pricingData` keeps, of `TableModelPricing`, the (model, provider) pair —
  the only parts the fallback resolution consults;
* `configStoreHealth` is true when `configStore` is non-nil and implements
  the `providerModelHealthStore` interface;
* `persistCallback` is true when `providerModelHealthPersistCallback` is
  non-nil;
* `persistSignalStarted` is true when `providerModelHealthPersistSignal` is a
  non-nil channel (the debounce worker was started). -/
structure ModelCatalog where
  modelPool : List (String × List String)
  unfilteredModelPool : List (String × List String)
  providerModelSnapshots : List (String × List String)
  providerModelSources : List (String × String)
  unfilteredProviderModelSources : List (String × String)
  providerModelHealth : List (String × providerModelHealthState)
  baseModelIndex : List (String × String)
  pricingData : List (String × String)
  configStoreHealth : Bool
  persistCallback : Bool
  persistSignalStarted : Bool
deriving DecidableEq, Repr

/-! ### Recording discovery results (`provider_models_health.go`) -/

/-- Go `extractDiscoveryErrorMessage`: the human-readable message of a discovery
error — the message field if non-empty, else the wrapped error's string, else
the generic fallback. A nil error yields the empty string. -/
def extractDiscoveryErrorMessage (discoveryErr : Option BifrostError) : String :=
  match discoveryErr with
  | none => ""
  | some e =>
    match e.errorField with
    | some f =>
      if f.message ≠ "" then f.message
      else
        match f.errorString with
        | some s => s
        | none => "model discovery failed"
    | none => "model discovery failed"

/-- The loop body of `countProviderModelsInResponse`: walks the response
entries keeping a set of model names already seen, counting entries whose
parsed provider is the expected one and whose parsed model is new. -/
def countModelsLoop (provider : String) : List Model → List String → Nat
  | [], _ => 0
  | m :: rest, seenModels =>
    let parsed := ParseModelString m.id provider
    if parsed.1 ≠ provider then countModelsLoop provider rest seenModels
    else if parsed.2 ∈ seenModels then countModelsLoop provider rest seenModels
    else countModelsLoop provider rest (parsed.2 :: seenModels) + 1

/-- Go `countProviderModelsInResponse`: the number of distinct parsed model
names in the response that belong to the expected provider. -/
def countProviderModelsInResponse (provider : String)
    (modelData : Option BifrostListModelsResponse) : Nat :=
  match modelData with
  | none => 0
  | some md =>
    if md.data.length = 0 then 0
    else countModelsLoop provider md.data []

/-- Go `RecordProviderModelDiscoveryResult` (in-memory part): records one
provider model listing attempt for the filtered or unfiltered variant.
`now` stands for `time.Now().UTC()`. -/
def RecordProviderModelDiscoveryResult (mc : ModelCatalog) (provider : String)
    (unfiltered : Bool) (modelData : Option BifrostListModelsResponse)
    (discoveryErr : Option BifrostError) (now : Nat) : ModelCatalog :=
  let state := findD mc.providerModelHealth provider providerModelHealthState.zero
  let target := if unfiltered then state.Unfiltered else state.Filtered
  let target :=
    match discoveryErr with
    | some _ =>
      { target with
          LastAttemptAt := now
          LastErrorAt := now
          LastError := extractDiscoveryErrorMessage discoveryErr }
    | none =>
      { target with
          LastAttemptAt := now
          LastSuccessAt := now
          LastErrorAt := 0
          LastError := ""
          LastModelsCount := countProviderModelsInResponse provider modelData }
  let state :=
    if unfiltered then { state with Unfiltered := target }
    else { state with Filtered := target }
  { mc with providerModelHealth := setA mc.providerModelHealth provider state }

/-- Go `updateProviderModelHealthSnapshotUpdatedAtLocked`. -/
def updateProviderModelHealthSnapshotUpdatedAtLocked (mc : ModelCatalog)
    (provider : String) (updatedAt : Nat) : ModelCatalog :=
  let state := findD mc.providerModelHealth provider providerModelHealthState.zero
  let state := { state with LastSnapshotUpdated := updatedAt }
  { mc with providerModelHealth := setA mc.providerModelHealth provider state }

/-! ### Persistence scheduling (`provider_models_health.go`) -/

/-- What one call to `persistProviderModelHealthState` does at the process
boundary: nothing, one immediate store write / callback invocation
(`persistProviderModelHealthStateNow`), or a non-blocking raise of the
capacity-1 dirty signal consumed by the debounce worker. -/
inductive ProviderModelHealthPersistEffect where
  | noop
  | immediateWrite
  | signalRaised
deriving DecidableEq, Repr

/-- Go `shouldPersistProviderModelHealthState`: true when a custom flush
callback is configured or the config store implements the health store
interface. -/
def shouldPersistProviderModelHealthState (mc : ModelCatalog) : Bool :=
  mc.persistCallback || mc.configStoreHealth

/-- Go `persistProviderModelHealthState`: aborts when no persistence
collaborator is configured; writes immediately when the debounce worker was
never started; otherwise raises the dirty signal. -/
def persistProviderModelHealthState (mc : ModelCatalog) :
    ProviderModelHealthPersistEffect :=
  if ¬ shouldPersistProviderModelHealthState mc then .noop
  else if ¬ mc.persistSignalStarted then .immediateWrite
  else .signalRaised

/-- The full `RecordProviderModelDiscoveryResult` call: the in-memory update
followed by the persistence side effect it triggers. -/
def recordProviderModelDiscoveryResultWithEffect (mc : ModelCatalog)
    (provider : String) (unfiltered : Bool)
    (modelData : Option BifrostListModelsResponse)
    (discoveryErr : Option BifrostError) (now : Nat) :
    ModelCatalog × ProviderModelHealthPersistEffect :=
  let mc' := RecordProviderModelDiscoveryResult mc provider unfiltered modelData discoveryErr now
  (mc', persistProviderModelHealthState mc')

/-! ### Persisted payload (`provider_models_health.go`) -/

/-- Go `persistedProviderModelHealthState`: the serializable per-provider record. -/
structure persistedProviderModelHealthState where
  Filtered : providerDiscoveryState
  Unfiltered : providerDiscoveryState
  LastSnapshotUpdated : Nat
  FilteredSource : String
  UnfilteredSource : String
deriving DecidableEq, Repr

/-- Go `isPersistedProviderModelHealthStateEmpty`: true exactly when every field
of the record is the Go zero value. -/
def isPersistedProviderModelHealthStateEmpty
    (entry : persistedProviderModelHealthState) : Bool :=
  if entry.Filtered.LastAttemptAt ≠ 0 ∨
      entry.Filtered.LastSuccessAt ≠ 0 ∨
      entry.Filtered.LastErrorAt ≠ 0 ∨
      entry.Filtered.LastError ≠ "" ∨
      entry.Filtered.LastModelsCount ≠ 0 then false
  else if entry.Unfiltered.LastAttemptAt ≠ 0 ∨
      entry.Unfiltered.LastSuccessAt ≠ 0 ∨
      entry.Unfiltered.LastErrorAt ≠ 0 ∨
      entry.Unfiltered.LastError ≠ "" ∨
      entry.Unfiltered.LastModelsCount ≠ 0 then false
  else if entry.LastSnapshotUpdated ≠ 0 then false
  else if entry.FilteredSource ≠ "" ∨ entry.UnfilteredSource ≠ "" then false
  else true

/-- The record `getPersistedProviderModelHealthState` would build for one
provider: the health state and the two source tags, absent keys giving Go
zero values. -/
def persistedProviderModelHealthEntry (mc : ModelCatalog) (provider : String) :
    persistedProviderModelHealthState :=
  { Filtered := (findD mc.providerModelHealth provider providerModelHealthState.zero).Filtered
    Unfiltered := (findD mc.providerModelHealth provider providerModelHealthState.zero).Unfiltered
    LastSnapshotUpdated :=
      (findD mc.providerModelHealth provider providerModelHealthState.zero).LastSnapshotUpdated
    FilteredSource := findD mc.providerModelSources provider ""
    UnfilteredSource := findD mc.unfilteredProviderModelSources provider "" }

/-- Go `getPersistedProviderModelHealthState`: the persisted payload, one entry
per provider appearing in the health or source maps, all-zero entries
omitted. -/
def getPersistedProviderModelHealthState (mc : ModelCatalog) :
    List (String × persistedProviderModelHealthState) :=
  ((keysA mc.providerModelHealth ++ keysA mc.providerModelSources ++
      keysA mc.unfilteredProviderModelSources).dedup).filterMap
    (fun provider =>
      let entry := persistedProviderModelHealthEntry mc provider
      if isPersistedProviderModelHealthStateEmpty entry then none
      else some (provider, entry))

/-! ### Health report (`provider_models_health.go`) -/

/-- Go `ProviderModelSnapshotHealth`: the per-provider report item. -/
structure ProviderModelSnapshotHealth where
  Provider : String
  Status : ProviderModelHealthStatus
  SnapshotModelCount : Nat
  FilteredModelCount : Nat
  UnfilteredModelCount : Nat
  FilteredSource : String
  UnfilteredSource : String
  LastSnapshotUpdated : Option Nat
  FilteredDiscovery : ProviderModelDiscoveryHealth
  UnfilteredDiscovery : ProviderModelDiscoveryHealth
deriving DecidableEq, Repr

/-- Go `ProviderModelSnapshotHealthSummary`. -/
structure ProviderModelSnapshotHealthSummary where
  TotalProviders : Nat
  HealthyProviders : Nat
  StaleProviders : Nat
  ErrorProviders : Nat
  DegradedProviders : Nat
  UnknownProviders : Nat
deriving DecidableEq, Repr

/-- The zero `ProviderModelSnapshotHealthSummary` the report loop starts
from. -/
def ProviderModelSnapshotHealthSummary.zero : ProviderModelSnapshotHealthSummary :=
  { TotalProviders := 0, HealthyProviders := 0, StaleProviders := 0
    ErrorProviders := 0, DegradedProviders := 0, UnknownProviders := 0 }

/-- Go `ProviderModelSnapshotHealthReport`. -/
structure ProviderModelSnapshotHealthReport where
  Status : ProviderModelHealthStatus
  GeneratedAt : Nat
  StaleAfterSeconds : Nat
  Summary : ProviderModelSnapshotHealthSummary
  Providers : List ProviderModelSnapshotHealth
deriving DecidableEq, Repr

/-- The union of provider keys over every pool, snapshot, source and health
map (the report's `providerSet`, as a duplicate-free list). -/
def reportProviderSet (mc : ModelCatalog) : List String :=
  (keysA mc.modelPool ++ keysA mc.unfilteredModelPool ++
    keysA mc.providerModelSnapshots ++ keysA mc.providerModelHealth ++
    keysA mc.providerModelSources ++ keysA mc.unfilteredProviderModelSources).dedup

/-- The report's provider enumeration: the key union sorted lexicographically
(`sort.Slice` with a `<` comparator over distinct keys has this unique
result). -/
def reportProviders (mc : ModelCatalog) : List String :=
  List.insertionSort (· ≤ ·) (reportProviderSet mc)

/-- The loop body of `GetProviderModelSnapshotHealthReport` building one
provider's report item. -/
def providerSnapshotHealthItem (mc : ModelCatalog) (now : Nat) (provider : String) :
    ProviderModelSnapshotHealth :=
  let filteredSource0 := findD mc.providerModelSources provider ""
  let filteredSource :=
    if filteredSource0 = "" then ProviderModelSourceUnknown else filteredSource0
  let unfilteredSource0 := findD mc.unfilteredProviderModelSources provider ""
  let unfilteredSource :=
    if unfilteredSource0 = "" then ProviderModelSourceUnknown else unfilteredSource0
  let state := findD mc.providerModelHealth provider providerModelHealthState.zero
  let filteredDiscovery := toProviderModelDiscoveryHealth state.Filtered now
  let unfilteredDiscovery := toProviderModelDiscoveryHealth state.Unfiltered now
  { Provider := provider
    Status := mergeProviderHealthStatus filteredDiscovery.Status unfilteredDiscovery.Status
    SnapshotModelCount := (findD mc.providerModelSnapshots provider []).length
    FilteredModelCount := (findD mc.modelPool provider []).length
    UnfilteredModelCount := (findD mc.unfilteredModelPool provider []).length
    FilteredSource := filteredSource
    UnfilteredSource := unfilteredSource
    LastSnapshotUpdated :=
      if state.LastSnapshotUpdated ≠ 0 then some state.LastSnapshotUpdated else none
    FilteredDiscovery := filteredDiscovery
    UnfilteredDiscovery := unfilteredDiscovery }

/-- The summary switch of the report loop: counts one provider's merged
status (the default branch counting as unknown). -/
def addStatusToSummary (summary : ProviderModelSnapshotHealthSummary)
    (status : ProviderModelHealthStatus) : ProviderModelSnapshotHealthSummary :=
  let summary := { summary with TotalProviders := summary.TotalProviders + 1 }
  match status with
  | .healthy => { summary with HealthyProviders := summary.HealthyProviders + 1 }
  | .stale => { summary with StaleProviders := summary.StaleProviders + 1 }
  | .error => { summary with ErrorProviders := summary.ErrorProviders + 1 }
  | .degraded => { summary with DegradedProviders := summary.DegradedProviders + 1 }
  | .unknown => { summary with UnknownProviders := summary.UnknownProviders + 1 }

/-- Go `GetProviderModelSnapshotHealthReport`: one consistent read of the shared
state producing the sorted, summarized cross-provider report. `now` stands
for the single `time.Now().UTC()` read at the top of the function. -/
def GetProviderModelSnapshotHealthReport (mc : ModelCatalog) (now : Nat) :
    ProviderModelSnapshotHealthReport :=
  let providers := reportProviders mc
  let items := providers.map (providerSnapshotHealthItem mc now)
  let summary := (items.map (·.Status)).foldl addStatusToSummary .zero
  let reportStatus :=
    if summary.TotalProviders = 0 then ProviderModelHealthStatus.unknown
    else if summary.ErrorProviders > 0 then .error
    else if summary.StaleProviders > 0 ∨ summary.DegradedProviders > 0 then .degraded
    else if summary.HealthyProviders > 0 then .healthy
    else .unknown
  { Status := reportStatus
    GeneratedAt := now
    StaleAfterSeconds := DefaultProviderModelSnapshotStaleAfter / 1000000000
    Summary := summary
    Providers := items }

/-! ### Default seed models (`default_models.go`) -/

/-- Go `defaultProviderModels`: the built-in last-resort seed lists. -/
def defaultProviderModels : List (String × List String) :=
  [("glm",
    ["glm-5", "glm-4.7", "glm-4.7x", "glm-4.7-flash", "glm-4.7-flashx",
     "glm-4.6", "glm-4.6v", "glm-4.6v-flash", "glm-4.5", "glm-4.5-air",
     "glm-4.5-airx", "glm-z1-air", "glm-z1-airx", "glm-z1-flash",
     "glm-z1-flashx", "glm-z1-thinking", "glm-z1-rumination"]),
   ("minimax",
    ["MiniMax-M2.5", "MiniMax-M2", "MiniMax-M2.1", "MiniMax-M2.5-lightning",
     "MiniMax-M2.1-lightning", "speech-2.6-hd", "speech-2.6-turbo",
     "speech-02-hd", "speech-02-turbo"]),
   ("deepseek", ["deepseek-chat", "deepseek-reasoner"]),
   ("moonshot",
    ["kimi-k2.5", "kimi-k2-thinking", "kimi-k2-thinking-turbo", "kimi-latest",
     "kimi-latest-8k", "kimi-latest-32k", "kimi-latest-128k"]),
   ("volcengine",
    ["doubao-embedding", "doubao-embedding-text-240715", "doubao-embedding-large",
     "doubao-embedding-large-text-240915", "doubao-embedding-large-text-250515",
     "deepseek-v3-2-251201", "glm-4-7-251222", "kimi-k2-thinking-251104"]),
   ("qwen",
    ["qwen-plus-latest", "qwen-plus", "qwen-turbo-latest", "qwen-turbo",
     "qwen-max-latest", "qwen3-max-preview", "qwen3-coder-plus",
     "qwen3-coder-480b-a35b-instruct"])]

/-- Go `getDefaultModelsForProvider`: the seed list for a provider, or nil for a
provider without one (the returned clone is irrelevant to a pure model). -/
def getDefaultModelsForProvider (provider : String) : List String :=
  findD defaultProviderModels provider []

/-! ### Model identity and pool resolution (modelled from the spec) -/

/-- Modelled from the spec: the date-suffix stripping step of
`GetBaseModelName` is not part of the provided sources. Per §4.1 step 3 it
strips a trailing date-like suffix appended with a separator, vendor-style:
a dashed date (`-YYYY-MM-DD`), an 8-digit date (`-YYYYMMDD`) or a compact
6-digit numeric date segment (`-YYMMDD`); otherwise the string is returned
unchanged. -/
def stripTrailingDateSuffix (model : String) : String :=
  let r := model.data.reverse
  let dashed :=
    match r with
    | d1 :: d2 :: '-' :: m1 :: m2 :: '-' :: y1 :: y2 :: y3 :: y4 :: '-' :: tail =>
      if ([d1, d2, m1, m2, y1, y2, y3, y4].all Char.isDigit) ∧ tail ≠ [] then
        some (String.mk tail.reverse)
      else none
    | _ => none
  match dashed with
  | some s => s
  | none =>
    let digits := r.takeWhile Char.isDigit
    let rest := r.drop digits.length
    if (digits.length = 8 ∨ digits.length = 6) ∧ rest.head? = some '-' ∧
        2 ≤ rest.length then
      String.mk (rest.drop 1).reverse
    else model

/-- Modelled from the spec: `ModelCatalog.GetBaseModelName` is not part of
the provided sources (only its tests are). Per §4.1: split off a provider
prefix on the first delimiter, return a `baseModelIndex` hit verbatim
(catalog overrides always win), otherwise strip a trailing date-like suffix;
empty input yields empty output. -/
def GetBaseModelName (mc : ModelCatalog) (model : String) : String :=
  if model = "" then ""
  else
    let working :=
      match splitOnFirstChar '/' model.data with
      | some p => String.mk p.2
      | none => model
    match lookupA mc.baseModelIndex working with
    | some indexed => indexed
    | none => stripTrailingDateSuffix working

/-- Modelled from the spec: pool deduplication per §4.2 — deduplicated by
base name (via §4.1), preserving first-seen order, keeping the base names. -/
def dedupModelsByBaseNameLoop (mc : ModelCatalog) :
    List String → List String → List String
  | [], _ => []
  | m :: rest, seen =>
    let base := GetBaseModelName mc m
    if base ∈ seen then dedupModelsByBaseNameLoop mc rest seen
    else base :: dedupModelsByBaseNameLoop mc rest (base :: seen)

/-- Modelled from the spec: the usable model entries of a discovery response
per §4.2 — entries whose parsed provider matches the expected provider,
deduplicated by base name preserving first-seen order; an absent or empty
response has none. -/
def usableDiscoveredModels (mc : ModelCatalog) (provider : String)
    (modelData : Option BifrostListModelsResponse) : List String :=
  match modelData with
  | none => []
  | some md =>
    dedupModelsByBaseNameLoop mc
      (md.data.filterMap (fun m =>
        let parsed := ParseModelString m.id provider
        if parsed.1 = provider then some parsed.2 else none)) []

/-- Modelled from the spec: the pricing-catalog fallback tier — the models of
the externally supplied pricing dataset entries keyed to this provider,
deduplicated by base name. -/
def pricingModelsForProvider (mc : ModelCatalog) (provider : String) : List String :=
  dedupModelsByBaseNameLoop mc
    ((mc.pricingData.filter (fun e => e.2 = provider)).map (·.1)) []

/-- Modelled from the spec: §4.2 fallback resolution — the fallback tiers in
strict precedence order, first non-empty wins: durable snapshot reused
verbatim, then pricing-catalog entries, then the built-in default seed list,
each tagged with the source that produced it. -/
def resolveFallbackProviderModels (mc : ModelCatalog) (provider : String) :
    Option (List String × String) :=
  let snapshot := findD mc.providerModelSnapshots provider []
  if snapshot ≠ [] then some (snapshot, ProviderModelSourcePersistedSnapshot)
  else
    let pricing := pricingModelsForProvider mc provider
    if pricing ≠ [] then some (pricing, ProviderModelSourcePricingCatalog)
    else
      let defaults := getDefaultModelsForProvider provider
      if defaults ≠ [] then some (defaults, ProviderModelSourceDefaultSeed)
      else none

/-- Modelled from the spec: `UpsertModelDataForProvider` is not part of the
provided sources (only its tests and callees are). Per §4.2: a response with
usable entries rebuilds the filtered pool from them with source
`live_discovery`; otherwise the pool and source come from the fallback tiers
(first non-empty tier wins), and with every tier empty nothing changes. The
`discoveryError` argument does not influence pool resolution. -/
def UpsertModelDataForProvider (mc : ModelCatalog) (provider : String)
    (modelData : Option BifrostListModelsResponse)
    (discoveryErr : Option BifrostError) : ModelCatalog :=
  let _ := discoveryErr
  let discovered := usableDiscoveredModels mc provider modelData
  if discovered ≠ [] then
    { mc with
        modelPool := setA mc.modelPool provider discovered
        providerModelSources :=
          setA mc.providerModelSources provider ProviderModelSourceLiveDiscovery }
  else
    match resolveFallbackProviderModels mc provider with
    | some resolved =>
      { mc with
          modelPool := setA mc.modelPool provider resolved.1
          providerModelSources := setA mc.providerModelSources provider resolved.2 }
    | none => mc

/-- Modelled from the spec: `UpsertUnfilteredModelDataForProvider` is not
part of the provided sources (only its tests and callees are). Per §4.2 it
resolves the unfiltered pool the same way, and a non-empty live result
additionally replaces the durable snapshot (monotonic: never cleared by an
empty result) and stamps the snapshot-updated time. -/
def UpsertUnfilteredModelDataForProvider (mc : ModelCatalog) (provider : String)
    (modelData : Option BifrostListModelsResponse) (now : Nat) : ModelCatalog :=
  let discovered := usableDiscoveredModels mc provider modelData
  if discovered ≠ [] then
    let mc :=
      { mc with
          unfilteredModelPool := setA mc.unfilteredModelPool provider discovered
          unfilteredProviderModelSources :=
            setA mc.unfilteredProviderModelSources provider ProviderModelSourceLiveDiscovery
          providerModelSnapshots := setA mc.providerModelSnapshots provider discovered }
    updateProviderModelHealthSnapshotUpdatedAtLocked mc provider now
  else
    match resolveFallbackProviderModels mc provider with
    | some resolved =>
      { mc with
          unfilteredModelPool := setA mc.unfilteredModelPool provider resolved.1
          unfilteredProviderModelSources :=
            setA mc.unfilteredProviderModelSources provider resolved.2 }
    | none => mc

/-! ### Spec-side restatements (for refinement claims) -/

/-- The parsed model names of the response entries that belong to the
expected provider, as the C5 claim words it: each entry's parsed provider is
re-checked against the expected provider. -/
def parsedProviderModelNames (provider : String) (data : List Model) : List String :=
  data.filterMap (fun m =>
    let parsed := ParseModelString m.id provider
    if parsed.1 = provider then some parsed.2 else none)

/-- The §4.3 status table exactly as the specification words it, rows in
table order: unknown when no attempt was ever recorded; error when an error
timestamp is set and is not strictly before the success timestamp (or no
success was ever recorded); stale when a success is recorded, no newer error
exists, and now minus last success exceeds the staleness threshold; healthy
when a success is recorded, no newer error exists, and it is within the
threshold; unknown when an attempt is recorded but neither success nor error
is set. -/
def specVariantHealthStatus (state : providerDiscoveryState) (now : Nat) :
    ProviderModelHealthStatus :=
  if state.LastAttemptAt = 0 then .unknown
  else if state.LastErrorAt ≠ 0 ∧
      (¬ state.LastErrorAt < state.LastSuccessAt ∨ state.LastSuccessAt = 0) then .error
  else if state.LastSuccessAt ≠ 0 ∧
      (state.LastErrorAt = 0 ∨ state.LastErrorAt < state.LastSuccessAt) ∧
      (now : Int) - (state.LastSuccessAt : Int) >
        (DefaultProviderModelSnapshotStaleAfter : Int) then .stale
  else if state.LastSuccessAt ≠ 0 ∧
      (state.LastErrorAt = 0 ∨ state.LastErrorAt < state.LastSuccessAt) ∧
      ¬ ((now : Int) - (state.LastSuccessAt : Int) >
        (DefaultProviderModelSnapshotStaleAfter : Int)) then .healthy
  else .unknown

/-- The §4.4 merge precedence exactly as the specification words it:
error if either variant is error; otherwise stale if either variant is stale;
otherwise unknown if both variants are unknown; otherwise degraded if exactly
one variant is unknown; otherwise healthy. -/
def specMergedProviderStatus (filtered unfiltered : ProviderModelHealthStatus) :
    ProviderModelHealthStatus :=
  if filtered = .error ∨ unfiltered = .error then .error
  else if filtered = .stale ∨ unfiltered = .stale then .stale
  else if filtered = .unknown ∧ unfiltered = .unknown then .unknown
  else if (filtered = .unknown ∧ ¬ unfiltered = .unknown) ∨
      (¬ filtered = .unknown ∧ unfiltered = .unknown) then .degraded
  else .healthy

/-! ### Helper lemmas -/

theorem foldl_addStatusToSummary (statuses : List ProviderModelHealthStatus)
    (acc : ProviderModelSnapshotHealthSummary) :
    statuses.foldl addStatusToSummary acc =
      { TotalProviders := acc.TotalProviders + statuses.length
        HealthyProviders := acc.HealthyProviders + statuses.count .healthy
        StaleProviders := acc.StaleProviders + statuses.count .stale
        ErrorProviders := acc.ErrorProviders + statuses.count .error
        DegradedProviders := acc.DegradedProviders + statuses.count .degraded
        UnknownProviders := acc.UnknownProviders + statuses.count .unknown } := by
  induction statuses generalizing acc with
  | nil => simp
  | cons s rest ih =>
    rw [List.foldl_cons, ih]
    cases s <;>
      simp [addStatusToSummary, List.count_cons] <;> omega

/-! ### Claims C1 and C2 -/

/-- C1: for every per-variant discovery state and current time, the derived
health status of `toProviderModelDiscoveryHealth` follows the §4.3 table
exactly (unknown / error / stale / healthy / unknown rows as worded in the
specification). -/
theorem claim1_variant_status_follows_table :
    ∀ (state : providerDiscoveryState) (now : Nat),
      (toProviderModelDiscoveryHealth state now).Status =
        specVariantHealthStatus state now := by
  intro state now
  simp only [toProviderModelDiscoveryHealth, specVariantHealthStatus]
  split_ifs <;> first | rfl | omega

/-- C2: for every pair of per-variant statuses, the merged per-provider
status obeys the precedence error > stale > both-unknown > exactly-one-unknown
(degraded) > healthy. -/
theorem claim2_merge_precedence :
    ∀ (filtered unfiltered : ProviderModelHealthStatus),
      mergeProviderHealthStatus filtered unfiltered =
        specMergedProviderStatus filtered unfiltered := by
  decide

theorem report_summary_counts (mc : ModelCatalog) (now : Nat) :
    (GetProviderModelSnapshotHealthReport mc now).Summary =
      { TotalProviders := (GetProviderModelSnapshotHealthReport mc now).Providers.length
        HealthyProviders :=
          (((GetProviderModelSnapshotHealthReport mc now).Providers.map (·.Status)).count .healthy)
        StaleProviders :=
          (((GetProviderModelSnapshotHealthReport mc now).Providers.map (·.Status)).count .stale)
        ErrorProviders :=
          (((GetProviderModelSnapshotHealthReport mc now).Providers.map (·.Status)).count .error)
        DegradedProviders :=
          (((GetProviderModelSnapshotHealthReport mc now).Providers.map (·.Status)).count .degraded)
        UnknownProviders :=
          (((GetProviderModelSnapshotHealthReport mc now).Providers.map (·.Status)).count .unknown) } := by
  show (((reportProviders mc).map (providerSnapshotHealthItem mc now)).map
      (·.Status)).foldl addStatusToSummary .zero = _
  rw [foldl_addStatusToSummary]
  simp [ProviderModelSnapshotHealthSummary.zero, GetProviderModelSnapshotHealthReport]

/-- C3: the overall status of the health report is derived from the summary
counts with the precedence error > stale-or-degraded > healthy > unknown:
unknown when zero providers are known; error when at least one provider's
merged status is error; otherwise degraded when at least one provider is
stale or degraded; otherwise healthy when at least one provider is healthy;
otherwise unknown. The summary counts are exactly the counts of the merged
per-provider statuses, and the report carries the generation timestamp and
the configured staleness threshold in seconds. -/
theorem claim3_overall_status_from_summary_counts :
    ∀ (mc : ModelCatalog) (now : Nat),
      (GetProviderModelSnapshotHealthReport mc now).Status =
        (if (GetProviderModelSnapshotHealthReport mc now).Summary.TotalProviders = 0 then
          ProviderModelHealthStatus.unknown
         else if 0 < (GetProviderModelSnapshotHealthReport mc now).Summary.ErrorProviders then
          .error
         else if 0 < (GetProviderModelSnapshotHealthReport mc now).Summary.StaleProviders ∨
            0 < (GetProviderModelSnapshotHealthReport mc now).Summary.DegradedProviders then
          .degraded
         else if 0 < (GetProviderModelSnapshotHealthReport mc now).Summary.HealthyProviders then
          .healthy
         else .unknown) ∧
      (0 < (GetProviderModelSnapshotHealthReport mc now).Summary.ErrorProviders ↔
        ∃ item ∈ (GetProviderModelSnapshotHealthReport mc now).Providers,
          item.Status = ProviderModelHealthStatus.error) ∧
      (GetProviderModelSnapshotHealthReport mc now).Summary.TotalProviders =
        (GetProviderModelSnapshotHealthReport mc now).Providers.length ∧
      (GetProviderModelSnapshotHealthReport mc now).Summary.ErrorProviders =
        (((GetProviderModelSnapshotHealthReport mc now).Providers.map (·.Status)).count .error) ∧
      (GetProviderModelSnapshotHealthReport mc now).Summary.StaleProviders =
        (((GetProviderModelSnapshotHealthReport mc now).Providers.map (·.Status)).count .stale) ∧
      (GetProviderModelSnapshotHealthReport mc now).Summary.DegradedProviders =
        (((GetProviderModelSnapshotHealthReport mc now).Providers.map (·.Status)).count .degraded) ∧
      (GetProviderModelSnapshotHealthReport mc now).Summary.HealthyProviders =
        (((GetProviderModelSnapshotHealthReport mc now).Providers.map (·.Status)).count .healthy) ∧
      (GetProviderModelSnapshotHealthReport mc now).Summary.UnknownProviders =
        (((GetProviderModelSnapshotHealthReport mc now).Providers.map (·.Status)).count .unknown) ∧
      (GetProviderModelSnapshotHealthReport mc now).GeneratedAt = now ∧
      (GetProviderModelSnapshotHealthReport mc now).StaleAfterSeconds = 86400 ∧
      (GetProviderModelSnapshotHealthReport mc now).StaleAfterSeconds * 1000000000 =
        DefaultProviderModelSnapshotStaleAfter := by
  intro mc now
  have hsum := report_summary_counts mc now
  refine ⟨rfl, ?_, ?_, ?_, ?_, ?_, ?_, ?_, rfl, rfl, rfl⟩ <;>
    (rw [hsum]; try simp [List.count_pos_iff, List.mem_map])

/-- C4: recording a discovery result with a non-nil error sets the attempt
and error timestamps and stores the extracted message (with the generic
fallback when the error carries none), while the prior success timestamp and
last-models count of that variant and all state of the other variant remain
unchanged. -/
theorem claim4_error_recording_sets_error_and_preserves_rest :
    ∀ (mc : ModelCatalog) (provider : String) (unfiltered : Bool)
      (modelData : Option BifrostListModelsResponse) (e : BifrostError) (now : Nat),
      ((findD (RecordProviderModelDiscoveryResult mc provider unfiltered modelData
            (some e) now).providerModelHealth provider
          providerModelHealthState.zero).variant unfiltered).LastAttemptAt = now ∧
      ((findD (RecordProviderModelDiscoveryResult mc provider unfiltered modelData
            (some e) now).providerModelHealth provider
          providerModelHealthState.zero).variant unfiltered).LastErrorAt = now ∧
      ((findD (RecordProviderModelDiscoveryResult mc provider unfiltered modelData
            (some e) now).providerModelHealth provider
          providerModelHealthState.zero).variant unfiltered).LastError =
        extractDiscoveryErrorMessage (some e) ∧
      ((findD (RecordProviderModelDiscoveryResult mc provider unfiltered modelData
            (some e) now).providerModelHealth provider
          providerModelHealthState.zero).variant unfiltered).LastSuccessAt =
        ((findD mc.providerModelHealth provider
          providerModelHealthState.zero).variant unfiltered).LastSuccessAt ∧
      ((findD (RecordProviderModelDiscoveryResult mc provider unfiltered modelData
            (some e) now).providerModelHealth provider
          providerModelHealthState.zero).variant unfiltered).LastModelsCount =
        ((findD mc.providerModelHealth provider
          providerModelHealthState.zero).variant unfiltered).LastModelsCount ∧
      (findD (RecordProviderModelDiscoveryResult mc provider unfiltered modelData
            (some e) now).providerModelHealth provider
          providerModelHealthState.zero).variant (!unfiltered) =
        (findD mc.providerModelHealth provider
          providerModelHealthState.zero).variant (!unfiltered) ∧
      extractDiscoveryErrorMessage (some { errorField := none }) =
        "model discovery failed" ∧
      extractDiscoveryErrorMessage
          (some { errorField := some { message := "", errorString := none } }) =
        "model discovery failed" := by
  intro mc provider unfiltered modelData e now
  simp only [RecordProviderModelDiscoveryResult, findD_setA_self]
  cases unfiltered <;>
    simp [providerModelHealthState.variant, extractDiscoveryErrorMessage]

theorem countModelsLoop_eq_card (provider : String) (data : List Model)
    (seen : List String) :
    countModelsLoop provider data seen =
      ((parsedProviderModelNames provider data).toFinset \ seen.toFinset).card := by
  induction data generalizing seen with
  | nil => simp [countModelsLoop, parsedProviderModelNames]
  | cons m rest ih =>
    by_cases hp : (ParseModelString m.id provider).1 = provider
    · by_cases hs : (ParseModelString m.id provider).2 ∈ seen
      · rw [show countModelsLoop provider (m :: rest) seen =
            countModelsLoop provider rest seen by
          simp [countModelsLoop, hp, hs]]
        rw [show parsedProviderModelNames provider (m :: rest) =
            (ParseModelString m.id provider).2 :: parsedProviderModelNames provider rest by
          simp [parsedProviderModelNames, hp]]
        rw [ih]
        simp only [List.toFinset_cons]
        rw [Finset.insert_sdiff_of_mem _ (List.mem_toFinset.2 hs)]
      · rw [show countModelsLoop provider (m :: rest) seen =
            countModelsLoop provider rest ((ParseModelString m.id provider).2 :: seen) + 1 by
          simp [countModelsLoop, hp, hs]]
        rw [show parsedProviderModelNames provider (m :: rest) =
            (ParseModelString m.id provider).2 :: parsedProviderModelNames provider rest by
          simp [parsedProviderModelNames, hp]]
        rw [ih]
        simp only [List.toFinset_cons]
        rw [Finset.sdiff_insert]
        have hns : (ParseModelString m.id provider).2 ∉ seen.toFinset := by
          simpa [List.mem_toFinset] using hs
        rw [Finset.insert_sdiff_of_not_mem _ hns]
        by_cases hm : (ParseModelString m.id provider).2 ∈
            (parsedProviderModelNames provider rest).toFinset \ seen.toFinset
        · rw [Finset.card_erase_of_mem hm,
            Finset.insert_eq_self.2 hm]
          have hpos : 0 < ((parsedProviderModelNames provider rest).toFinset \
              seen.toFinset).card := Finset.card_pos.2 ⟨_, hm⟩
          omega
        · rw [Finset.erase_eq_of_not_mem hm, Finset.card_insert_of_not_mem hm]
    · rw [show countModelsLoop provider (m :: rest) seen =
          countModelsLoop provider rest seen by simp [countModelsLoop, hp]]
      rw [show parsedProviderModelNames provider (m :: rest) =
          parsedProviderModelNames provider rest by simp [parsedProviderModelNames, hp]]
      exact ih seen

theorem countProviderModelsInResponse_eq_card (provider : String)
    (md : BifrostListModelsResponse) :
    countProviderModelsInResponse provider (some md) =
      (parsedProviderModelNames provider md.data).toFinset.card := by
  rw [show countProviderModelsInResponse provider (some md) =
      (if md.data.length = 0 then 0 else countModelsLoop provider md.data []) from rfl]
  by_cases h : md.data.length = 0
  · have hnil : md.data = [] := List.length_eq_zero.1 h
    simp [h, hnil, parsedProviderModelNames]
  · simp [h, countModelsLoop_eq_card]

/-- The catalog state at process start: every map empty, no persistence
collaborator, worker not started. -/
def emptyModelCatalog : ModelCatalog :=
  { modelPool := [], unfilteredModelPool := [], providerModelSnapshots := []
    providerModelSources := [], unfilteredProviderModelSources := []
    providerModelHealth := [], baseModelIndex := [], pricingData := []
    configStoreHealth := false, persistCallback := false
    persistSignalStarted := false }

/-- The Scenario A discovery response: entries `[X/m1, X/m2, X/m1]` for
provider `X` (here `"x"`). -/
def scenarioAResponse : BifrostListModelsResponse :=
  { data := [{ id := "x/m1" }, { id := "x/m2" }, { id := "x/m1" }] }

/-- C5: recording a discovery result with a nil error sets the success
timestamp, clears any previous error timestamp and message, and sets the
last-models count to the number of distinct parsed model names whose parsed
provider equals the expected provider (duplicates counted once, entries of
other providers excluded); Scenario A with entries `[X/m1, X/m2, X/m1]`
yields count 2 and a healthy variant status. -/
theorem claim5_success_recording_counts_distinct_provider_models :
    (∀ (mc : ModelCatalog) (provider : String) (unfiltered : Bool)
      (modelData : Option BifrostListModelsResponse) (now : Nat),
      ((findD (RecordProviderModelDiscoveryResult mc provider unfiltered modelData
            none now).providerModelHealth provider
          providerModelHealthState.zero).variant unfiltered).LastSuccessAt = now ∧
      ((findD (RecordProviderModelDiscoveryResult mc provider unfiltered modelData
            none now).providerModelHealth provider
          providerModelHealthState.zero).variant unfiltered).LastErrorAt = 0 ∧
      ((findD (RecordProviderModelDiscoveryResult mc provider unfiltered modelData
            none now).providerModelHealth provider
          providerModelHealthState.zero).variant unfiltered).LastError = "" ∧
      ((findD (RecordProviderModelDiscoveryResult mc provider unfiltered modelData
            none now).providerModelHealth provider
          providerModelHealthState.zero).variant unfiltered).LastModelsCount =
        countProviderModelsInResponse provider modelData) ∧
    (∀ (provider : String), countProviderModelsInResponse provider none = 0) ∧
    (∀ (provider : String) (md : BifrostListModelsResponse),
      countProviderModelsInResponse provider (some md) =
        (parsedProviderModelNames provider md.data).toFinset.card) ∧
    ((findD (RecordProviderModelDiscoveryResult emptyModelCatalog "x" false
          (some scenarioAResponse) none 1).providerModelHealth "x"
        providerModelHealthState.zero).variant false).LastModelsCount = 2 ∧
    (toProviderModelDiscoveryHealth
        ((findD (RecordProviderModelDiscoveryResult emptyModelCatalog "x" false
            (some scenarioAResponse) none 1).providerModelHealth "x"
          providerModelHealthState.zero).variant false) 1).Status = .healthy := by
  refine ⟨?_, fun _ => rfl, fun provider md =>
    countProviderModelsInResponse_eq_card provider md, by decide, by decide⟩
  intro mc provider unfiltered modelData now
  simp only [RecordProviderModelDiscoveryResult, findD_setA_self]
  cases unfiltered <;> simp [providerModelHealthState.variant]

theorem lookupA_cons {α : Type} (e : String × α) (t : List (String × α)) (k : String) :
    lookupA (e :: t) k = if e.1 = k then some e.2 else lookupA t k := by
  by_cases h : e.1 = k <;> simp [lookupA, List.find?, h]

theorem isPersistedProviderModelHealthStateEmpty_iff
    (entry : persistedProviderModelHealthState) :
    isPersistedProviderModelHealthStateEmpty entry = true ↔
      (entry.Filtered.LastAttemptAt = 0 ∧ entry.Filtered.LastSuccessAt = 0 ∧
       entry.Filtered.LastErrorAt = 0 ∧ entry.Filtered.LastError = "" ∧
       entry.Filtered.LastModelsCount = 0 ∧
       entry.Unfiltered.LastAttemptAt = 0 ∧ entry.Unfiltered.LastSuccessAt = 0 ∧
       entry.Unfiltered.LastErrorAt = 0 ∧ entry.Unfiltered.LastError = "" ∧
       entry.Unfiltered.LastModelsCount = 0 ∧
       entry.LastSnapshotUpdated = 0 ∧
       entry.FilteredSource = "" ∧ entry.UnfilteredSource = "") := by
  unfold isPersistedProviderModelHealthStateEmpty
  split_ifs with h1 h2 h3 h4 <;> simp <;> tauto

theorem getPersisted_lookup_none_iff (mc : ModelCatalog) (provider : String) :
    lookupA (getPersistedProviderModelHealthState mc) provider = none ↔
      (provider ∈ (keysA mc.providerModelHealth ++ keysA mc.providerModelSources ++
          keysA mc.unfilteredProviderModelSources).dedup →
        isPersistedProviderModelHealthStateEmpty
          (persistedProviderModelHealthEntry mc provider) = true) := by
  unfold getPersistedProviderModelHealthState
  generalize (keysA mc.providerModelHealth ++ keysA mc.providerModelSources ++
    keysA mc.unfilteredProviderModelSources).dedup = keys
  induction keys with
  | nil => simp [lookupA]
  | cons k rest ih =>
    by_cases hk : k = provider
    · subst hk
      by_cases he : isPersistedProviderModelHealthStateEmpty
          (persistedProviderModelHealthEntry mc k) = true
      · simp only [List.filterMap_cons, he, if_true]
        simpa [he] using ih
      · simp only [List.filterMap_cons, Bool.not_eq_true] at he ⊢
        simp [he, lookupA_cons]
    · by_cases he : isPersistedProviderModelHealthStateEmpty
          (persistedProviderModelHealthEntry mc k) = true
      · simp only [List.filterMap_cons, he, if_true]
        simpa [hk, Ne.symm hk] using ih
      · simp only [List.filterMap_cons, Bool.not_eq_true] at he ⊢
        simp only [he, Bool.false_eq_true, if_false, lookupA_cons, hk, if_neg hk]
        simpa [hk, Ne.symm hk] using ih

/-- C6: the persisted health payload omits a provider's record exactly when
the record is all-zero — no attempt, success or error timestamp, no error
message, zero last-models count in both variants, a zero
last-snapshot-updated time and both source tags empty; any record with at
least one non-zero field (a lone source tag included) is persisted. -/
theorem claim6_persisted_payload_omits_exactly_allzero_records :
    ∀ (mc : ModelCatalog) (provider : String),
      lookupA (getPersistedProviderModelHealthState mc) provider = none ↔
        ((persistedProviderModelHealthEntry mc provider).Filtered.LastAttemptAt = 0 ∧
         (persistedProviderModelHealthEntry mc provider).Filtered.LastSuccessAt = 0 ∧
         (persistedProviderModelHealthEntry mc provider).Filtered.LastErrorAt = 0 ∧
         (persistedProviderModelHealthEntry mc provider).Filtered.LastError = "" ∧
         (persistedProviderModelHealthEntry mc provider).Filtered.LastModelsCount = 0 ∧
         (persistedProviderModelHealthEntry mc provider).Unfiltered.LastAttemptAt = 0 ∧
         (persistedProviderModelHealthEntry mc provider).Unfiltered.LastSuccessAt = 0 ∧
         (persistedProviderModelHealthEntry mc provider).Unfiltered.LastErrorAt = 0 ∧
         (persistedProviderModelHealthEntry mc provider).Unfiltered.LastError = "" ∧
         (persistedProviderModelHealthEntry mc provider).Unfiltered.LastModelsCount = 0 ∧
         (persistedProviderModelHealthEntry mc provider).LastSnapshotUpdated = 0 ∧
         (persistedProviderModelHealthEntry mc provider).FilteredSource = "" ∧
         (persistedProviderModelHealthEntry mc provider).UnfilteredSource = "") := by
  intro mc provider
  rw [getPersisted_lookup_none_iff, ← isPersistedProviderModelHealthStateEmpty_iff]
  constructor
  · intro h
    by_cases hmem : provider ∈ (keysA mc.providerModelHealth ++
        keysA mc.providerModelSources ++ keysA mc.unfilteredProviderModelSources).dedup
    · exact h hmem
    · rw [List.mem_dedup] at hmem
      simp only [List.mem_append] at hmem
      push_neg at hmem
      have h1 := findD_eq_default_of_not_mem_keys mc.providerModelHealth provider
        providerModelHealthState.zero hmem.1.1
      have h2 := findD_eq_default_of_not_mem_keys mc.providerModelSources provider
        "" hmem.1.2
      have h3 := findD_eq_default_of_not_mem_keys mc.unfilteredProviderModelSources
        provider "" hmem.2
      simp only [persistedProviderModelHealthEntry, h1, h2, h3]
      simp [providerModelHealthState.zero, providerDiscoveryState.zero,
        isPersistedProviderModelHealthStateEmpty]
  · intro h _
    exact h

theorem report_providers_map (mc : ModelCatalog) (now : Nat) :
    (GetProviderModelSnapshotHealthReport mc now).Providers.map (·.Provider) =
      reportProviders mc := by
  show ((reportProviders mc).map (providerSnapshotHealthItem mc now)).map (·.Provider) = _
  rw [List.map_map,
    show ((·.Provider) ∘ providerSnapshotHealthItem mc now) = id from rfl, List.map_id]

/-- A catalog whose single provider has a fresh filtered success: its status
flips from healthy to stale once the staleness deadline passes between two
report calls, so the two reports differ beyond the generation timestamp. -/
def claim7CounterexampleCatalog : ModelCatalog :=
  { emptyModelCatalog with
      providerModelHealth := [("x",
        { Filtered := { LastAttemptAt := 1, LastSuccessAt := 1, LastErrorAt := 0
                        LastError := "", LastModelsCount := 1 }
          Unfiltered := .zero
          LastSnapshotUpdated := 0 })] }

/-- C7 (counterexample): two report calls over the same unmutated catalog
state are not always identical up to the generation timestamp — when the
staleness deadline passes between the calls the per-provider status changes
(healthy to stale here), so the claim as stated fails at this input. -/
theorem claim7_counterexample :
    ¬ ({ GetProviderModelSnapshotHealthReport claim7CounterexampleCatalog 1 with
          GeneratedAt := 0 } =
       { GetProviderModelSnapshotHealthReport claim7CounterexampleCatalog
            86400000000002 with GeneratedAt := 0 }) := by
  decide

/-- C7 (amended): two report calls with no intervening mutation and whose
evaluation times classify every tracked variant identically yield identical
reports except for the generation timestamp; and in every report the
providers list is the union of provider keys appearing in any pool, snapshot,
source, or health map, sorted lexicographically by provider identifier. -/
theorem claim7_report_deterministic_sorted_union :
    (∀ (mc : ModelCatalog) (now₁ now₂ : Nat),
      (∀ p ∈ reportProviders mc,
        toProviderModelDiscoveryHealth
            (findD mc.providerModelHealth p providerModelHealthState.zero).Filtered now₁ =
          toProviderModelDiscoveryHealth
            (findD mc.providerModelHealth p providerModelHealthState.zero).Filtered now₂ ∧
        toProviderModelDiscoveryHealth
            (findD mc.providerModelHealth p providerModelHealthState.zero).Unfiltered now₁ =
          toProviderModelDiscoveryHealth
            (findD mc.providerModelHealth p providerModelHealthState.zero).Unfiltered now₂) →
      ({ GetProviderModelSnapshotHealthReport mc now₁ with GeneratedAt := 0 } =
        { GetProviderModelSnapshotHealthReport mc now₂ with GeneratedAt := 0 })) ∧
    (∀ (mc : ModelCatalog) (now : Nat),
      List.Sorted (· ≤ ·)
        ((GetProviderModelSnapshotHealthReport mc now).Providers.map (·.Provider)) ∧
      (∀ p, p ∈ (GetProviderModelSnapshotHealthReport mc now).Providers.map (·.Provider) ↔
        (p ∈ keysA mc.modelPool ∨ p ∈ keysA mc.unfilteredModelPool ∨
         p ∈ keysA mc.providerModelSnapshots ∨ p ∈ keysA mc.providerModelHealth ∨
         p ∈ keysA mc.providerModelSources ∨
         p ∈ keysA mc.unfilteredProviderModelSources))) := by
  constructor
  · intro mc now₁ now₂ h
    have hitems : (reportProviders mc).map (providerSnapshotHealthItem mc now₁) =
        (reportProviders mc).map (providerSnapshotHealthItem mc now₂) := by
      apply List.map_congr_left
      intro p hp
      obtain ⟨h1, h2⟩ := h p hp
      simp [providerSnapshotHealthItem, h1, h2]
    simp only [GetProviderModelSnapshotHealthReport, hitems]
  · intro mc now
    refine ⟨?_, ?_⟩
    · rw [report_providers_map]
      exact List.sorted_insertionSort _ _
    · intro p
      rw [report_providers_map]
      unfold reportProviders
      rw [(List.perm_insertionSort _ _).mem_iff]
      unfold reportProviderSet
      rw [List.mem_dedup]
      simp [keysA, or_assoc]

/-- A catalog whose single provider is healthy in both variants at both
witness times. -/
def claim7WitnessCatalog : ModelCatalog :=
  { emptyModelCatalog with
      providerModelHealth := [("x",
        { Filtered := { LastAttemptAt := 1, LastSuccessAt := 1, LastErrorAt := 0
                        LastError := "", LastModelsCount := 1 }
          Unfiltered := { LastAttemptAt := 1, LastSuccessAt := 1, LastErrorAt := 0
                          LastError := "", LastModelsCount := 1 }
          LastSnapshotUpdated := 1 })] }

theorem claim7_witness :
    (∀ p ∈ reportProviders claim7WitnessCatalog,
      toProviderModelDiscoveryHealth
          (findD claim7WitnessCatalog.providerModelHealth p
            providerModelHealthState.zero).Filtered 1 =
        toProviderModelDiscoveryHealth
          (findD claim7WitnessCatalog.providerModelHealth p
            providerModelHealthState.zero).Filtered 2 ∧
      toProviderModelDiscoveryHealth
          (findD claim7WitnessCatalog.providerModelHealth p
            providerModelHealthState.zero).Unfiltered 1 =
        toProviderModelDiscoveryHealth
          (findD claim7WitnessCatalog.providerModelHealth p
            providerModelHealthState.zero).Unfiltered 2) ∧
    ({ GetProviderModelSnapshotHealthReport claim7WitnessCatalog 1 with GeneratedAt := 0 } =
      { GetProviderModelSnapshotHealthReport claim7WitnessCatalog 2 with GeneratedAt := 0 }) :=
  ⟨by decide,
    claim7_report_deterministic_sorted_union.1 claim7WitnessCatalog 1 2 (by decide)⟩

/-- C8: with no persistence collaborator configured — no config store
implementing the health store interface and no custom flush callback — a
discovery recording performs no store write and raises no persistence
signal, while the in-memory health state update is exactly the one performed
under any collaborator configuration. -/
theorem claim8_no_collaborator_means_no_io :
    ∀ (mc : ModelCatalog) (provider : String) (unfiltered : Bool)
      (modelData : Option BifrostListModelsResponse)
      (discoveryErr : Option BifrostError) (now : Nat),
      mc.configStoreHealth = false → mc.persistCallback = false →
      (recordProviderModelDiscoveryResultWithEffect mc provider unfiltered modelData
          discoveryErr now).2 = .noop ∧
      (∀ (b₁ b₂ b₃ : Bool),
        (recordProviderModelDiscoveryResultWithEffect mc provider unfiltered modelData
            discoveryErr now).1.providerModelHealth =
          (RecordProviderModelDiscoveryResult
              { mc with configStoreHealth := b₁, persistCallback := b₂
                        persistSignalStarted := b₃ }
              provider unfiltered modelData discoveryErr now).providerModelHealth) := by
  intro mc provider unfiltered modelData discoveryErr now hstore hcb
  constructor
  · simp [recordProviderModelDiscoveryResultWithEffect,
      persistProviderModelHealthState, shouldPersistProviderModelHealthState,
      RecordProviderModelDiscoveryResult, hstore, hcb]
  · intro b₁ b₂ b₃
    simp [recordProviderModelDiscoveryResultWithEffect,
      RecordProviderModelDiscoveryResult]

theorem claim8_witness :
    emptyModelCatalog.configStoreHealth = false ∧
    emptyModelCatalog.persistCallback = false ∧
    ((recordProviderModelDiscoveryResultWithEffect emptyModelCatalog "x" false none
        none 1).2 = .noop ∧
      (∀ (b₁ b₂ b₃ : Bool),
        (recordProviderModelDiscoveryResultWithEffect emptyModelCatalog "x" false none
            none 1).1.providerModelHealth =
          (RecordProviderModelDiscoveryResult
              { emptyModelCatalog with configStoreHealth := b₁, persistCallback := b₂
                                       persistSignalStarted := b₃ }
              "x" false none none 1).providerModelHealth)) :=
  ⟨rfl, rfl, claim8_no_collaborator_means_no_io emptyModelCatalog "x" false none none 1
    rfl rfl⟩

theorem resolveFallback_snapshot (mc : ModelCatalog) (provider : String)
    (hsnap : findD mc.providerModelSnapshots provider [] ≠ []) :
    resolveFallbackProviderModels mc provider =
      some (findD mc.providerModelSnapshots provider [],
        ProviderModelSourcePersistedSnapshot) := by
  simp [resolveFallbackProviderModels, hsnap]

theorem resolveFallback_pricing (mc : ModelCatalog) (provider : String)
    (hsnap : findD mc.providerModelSnapshots provider [] = [])
    (hpricing : pricingModelsForProvider mc provider ≠ []) :
    resolveFallbackProviderModels mc provider =
      some (pricingModelsForProvider mc provider, ProviderModelSourcePricingCatalog) := by
  simp [resolveFallbackProviderModels, hsnap, hpricing]

theorem resolveFallback_default (mc : ModelCatalog) (provider : String)
    (hsnap : findD mc.providerModelSnapshots provider [] = [])
    (hpricing : pricingModelsForProvider mc provider = [])
    (hdefault : getDefaultModelsForProvider provider ≠ []) :
    resolveFallbackProviderModels mc provider =
      some (getDefaultModelsForProvider provider, ProviderModelSourceDefaultSeed) := by
  simp [resolveFallbackProviderModels, hsnap, hpricing, hdefault]

theorem upsert_fallback_resolved (mc : ModelCatalog) (provider : String)
    (modelData : Option BifrostListModelsResponse) (discoveryErr : Option BifrostError)
    (now : Nat) (models : List String) (src : String)
    (h : usableDiscoveredModels mc provider modelData = [])
    (hres : resolveFallbackProviderModels mc provider = some (models, src)) :
    findD (UpsertModelDataForProvider mc provider modelData
        discoveryErr).modelPool provider [] = models ∧
    findD (UpsertModelDataForProvider mc provider modelData
        discoveryErr).providerModelSources provider "" = src ∧
    findD (UpsertUnfilteredModelDataForProvider mc provider modelData
        now).unfilteredModelPool provider [] = models ∧
    findD (UpsertUnfilteredModelDataForProvider mc provider modelData
        now).unfilteredProviderModelSources provider "" = src := by
  simp only [UpsertModelDataForProvider, UpsertUnfilteredModelDataForProvider, h,
    ne_eq, not_true_eq_false, if_false, hres]
  simp [findD_setA_self]

/-- C9: when an upsert call (filtered or unfiltered) provides no usable
discovery data, the resulting pool is resolved from the fallback tiers in
strict precedence order with the first non-empty tier winning — durable
snapshot, then pricing-catalog entries for the provider, then the built-in
default seed list — and the source tag is set to the producing tier; in
particular a non-empty durable snapshot yields exactly the snapshot, never
the pricing or default-seed data. -/
theorem claim9_upsert_fallback_strict_precedence :
    ∀ (mc : ModelCatalog) (provider : String)
      (modelData : Option BifrostListModelsResponse)
      (discoveryErr : Option BifrostError) (now : Nat),
      usableDiscoveredModels mc provider modelData = [] →
      (findD mc.providerModelSnapshots provider [] ≠ [] →
        findD (UpsertModelDataForProvider mc provider modelData
            discoveryErr).modelPool provider [] =
          findD mc.providerModelSnapshots provider [] ∧
        findD (UpsertModelDataForProvider mc provider modelData
            discoveryErr).providerModelSources provider "" =
          ProviderModelSourcePersistedSnapshot ∧
        findD (UpsertUnfilteredModelDataForProvider mc provider modelData
            now).unfilteredModelPool provider [] =
          findD mc.providerModelSnapshots provider [] ∧
        findD (UpsertUnfilteredModelDataForProvider mc provider modelData
            now).unfilteredProviderModelSources provider "" =
          ProviderModelSourcePersistedSnapshot) ∧
      (findD mc.providerModelSnapshots provider [] = [] →
        pricingModelsForProvider mc provider ≠ [] →
        findD (UpsertModelDataForProvider mc provider modelData
            discoveryErr).modelPool provider [] =
          pricingModelsForProvider mc provider ∧
        findD (UpsertModelDataForProvider mc provider modelData
            discoveryErr).providerModelSources provider "" =
          ProviderModelSourcePricingCatalog ∧
        findD (UpsertUnfilteredModelDataForProvider mc provider modelData
            now).unfilteredModelPool provider [] =
          pricingModelsForProvider mc provider ∧
        findD (UpsertUnfilteredModelDataForProvider mc provider modelData
            now).unfilteredProviderModelSources provider "" =
          ProviderModelSourcePricingCatalog) ∧
      (findD mc.providerModelSnapshots provider [] = [] →
        pricingModelsForProvider mc provider = [] →
        getDefaultModelsForProvider provider ≠ [] →
        findD (UpsertModelDataForProvider mc provider modelData
            discoveryErr).modelPool provider [] =
          getDefaultModelsForProvider provider ∧
        findD (UpsertModelDataForProvider mc provider modelData
            discoveryErr).providerModelSources provider "" =
          ProviderModelSourceDefaultSeed ∧
        findD (UpsertUnfilteredModelDataForProvider mc provider modelData
            now).unfilteredModelPool provider [] =
          getDefaultModelsForProvider provider ∧
        findD (UpsertUnfilteredModelDataForProvider mc provider modelData
            now).unfilteredProviderModelSources provider "" =
          ProviderModelSourceDefaultSeed) := by
  intro mc provider modelData discoveryErr now h
  refine ⟨?_, ?_, ?_⟩
  · intro hsnap
    exact upsert_fallback_resolved mc provider modelData discoveryErr now _ _ h
      (resolveFallback_snapshot mc provider hsnap)
  · intro hsnap hpricing
    exact upsert_fallback_resolved mc provider modelData discoveryErr now _ _ h
      (resolveFallback_pricing mc provider hsnap hpricing)
  · intro hsnap hpricing hdefault
    exact upsert_fallback_resolved mc provider modelData discoveryErr now _ _ h
      (resolveFallback_default mc provider hsnap hpricing hdefault)

/-- The catalog of the snapshot-over-pricing upsert test: a pricing entry for
`glm` plus a non-empty durable `glm` snapshot. -/
def claim9WitnessCatalog : ModelCatalog :=
  { emptyModelCatalog with
      pricingData := [("glm-pricing-only", "glm")]
      providerModelSnapshots := [("glm", ["glm-snapshot-primary"])] }

theorem claim9_witness :
    usableDiscoveredModels claim9WitnessCatalog "glm" (some { data := [] }) = [] ∧
    findD claim9WitnessCatalog.providerModelSnapshots "glm" [] ≠ [] ∧
    pricingModelsForProvider claim9WitnessCatalog "glm" ≠ [] ∧
    findD (UpsertModelDataForProvider claim9WitnessCatalog "glm" (some { data := [] })
        none).modelPool "glm" [] = ["glm-snapshot-primary"] ∧
    findD (UpsertModelDataForProvider claim9WitnessCatalog "glm" (some { data := [] })
        none).providerModelSources "glm" "" = ProviderModelSourcePersistedSnapshot := by
  have h := (claim9_upsert_fallback_strict_precedence claim9WitnessCatalog "glm"
    (some { data := [] }) none 0 rfl).1 (by decide)
  exact ⟨rfl, by decide, by decide, h.1.trans (by decide), h.2.1⟩

/-- C10: recording a discovery result with a nil error and a nil or empty
response is treated as a success: the success timestamp is set, any previous
error timestamp and message are cleared, the last-models count becomes 0, and
the derived variant status at the recording time is healthy despite zero
models discovered. -/
theorem claim10_empty_success_is_healthy :
    ∀ (mc : ModelCatalog) (provider : String) (unfiltered : Bool)
      (modelData : Option BifrostListModelsResponse) (now : Nat),
      0 < now →
      (modelData = none ∨ modelData = some { data := [] }) →
      ((findD (RecordProviderModelDiscoveryResult mc provider unfiltered modelData
            none now).providerModelHealth provider
          providerModelHealthState.zero).variant unfiltered).LastSuccessAt = now ∧
      ((findD (RecordProviderModelDiscoveryResult mc provider unfiltered modelData
            none now).providerModelHealth provider
          providerModelHealthState.zero).variant unfiltered).LastErrorAt = 0 ∧
      ((findD (RecordProviderModelDiscoveryResult mc provider unfiltered modelData
            none now).providerModelHealth provider
          providerModelHealthState.zero).variant unfiltered).LastError = "" ∧
      ((findD (RecordProviderModelDiscoveryResult mc provider unfiltered modelData
            none now).providerModelHealth provider
          providerModelHealthState.zero).variant unfiltered).LastModelsCount = 0 ∧
      (toProviderModelDiscoveryHealth
          ((findD (RecordProviderModelDiscoveryResult mc provider unfiltered modelData
              none now).providerModelHealth provider
            providerModelHealthState.zero).variant unfiltered) now).Status = .healthy := by
  intro mc provider unfiltered modelData now hnow hresp
  have hcount : countProviderModelsInResponse provider modelData = 0 := by
    rcases hresp with h | h <;> subst h <;> rfl
  have hne : now ≠ 0 := by omega
  simp only [RecordProviderModelDiscoveryResult, findD_setA_self, hcount]
  cases unfiltered <;>
    refine ⟨rfl, rfl, rfl, rfl, ?_⟩ <;>
    · simp only [providerModelHealthState.variant, toProviderModelDiscoveryHealth,
        if_true, if_false, Bool.false_eq_true]
      rw [if_neg hne]
      rw [if_neg (by simp)]
      rw [if_neg hne]
      rw [if_neg (by omega)]

theorem claim10_witness :
    0 < 1 ∧
    ((none : Option BifrostListModelsResponse) = none ∨
      (none : Option BifrostListModelsResponse) = some { data := [] }) ∧
    (((findD (RecordProviderModelDiscoveryResult emptyModelCatalog "x" false none
          none 1).providerModelHealth "x"
        providerModelHealthState.zero).variant false).LastSuccessAt = 1 ∧
      ((findD (RecordProviderModelDiscoveryResult emptyModelCatalog "x" false none
          none 1).providerModelHealth "x"
        providerModelHealthState.zero).variant false).LastErrorAt = 0 ∧
      ((findD (RecordProviderModelDiscoveryResult emptyModelCatalog "x" false none
          none 1).providerModelHealth "x"
        providerModelHealthState.zero).variant false).LastError = "" ∧
      ((findD (RecordProviderModelDiscoveryResult emptyModelCatalog "x" false none
          none 1).providerModelHealth "x"
        providerModelHealthState.zero).variant false).LastModelsCount = 0 ∧
      (toProviderModelDiscoveryHealth
          ((findD (RecordProviderModelDiscoveryResult emptyModelCatalog "x" false none
              none 1).providerModelHealth "x"
            providerModelHealthState.zero).variant false) 1).Status = .healthy) :=
  ⟨by decide, Or.inl rfl,
    claim10_empty_success_is_healthy emptyModelCatalog "x" false none 1 (by decide)
      (Or.inl rfl)⟩

end Modelcatalog
